import Mathlib

/-!
Shallow embedding of `AutoReloadScripts/Auto_Reload_Scripts.py`, a Blender
add-on whose core is the periodic timer callback `auto_reload_scripts_timer`
plus `register`/`unregister` glue.

Modelling choices:
* Host objects (`Region`, `Area`, `Screen`, `Window`, `Scene`, `Text`) carry
  exactly the attributes the add-on reads.  `bpy.context.scene` is an
  `Option Scene` (covering both a missing `scene` attribute and `None`);
  a dynamic scene property that may be unregistered is an `Option` field,
  read through `Option.getD` mirroring Python's `getattr(obj, name, default)`.
* The outcome of the host operators `bpy.ops.text.reload` /
  `bpy.ops.text.run_script` on the document at position `i` of
  `bpy.data.texts` is an environment-supplied schedule
  (`reloadOk i` / `runOk i`): `true` means the operator succeeds, `false`
  means it raises (the Python code catches either exception).
* A successful reload clears the document's externally-modified flag — the
  host-guaranteed postcondition of the reload primitive; a failed reload
  leaves the document unchanged.
* A tick produces an event trace recording every configuration read and
  every operator invocation, the updated document list, and the returned
  delay.  Since Lean functions are total, "the callback never lets an
  exception escape and always returns a numeric delay" is represented by
  `tick` being a total function into `TickResult`.
* Interval values (Python floats that are only ever passed through,
  never computed with) are modelled as rationals.
-/

namespace AutoReloadScripts

/-- `DEFAULT_CHECK_INTERVAL = 0.5` — default reload interval in seconds. -/
def DEFAULT_CHECK_INTERVAL : ℚ := 1/2

/-- A region of a Blender area; the code only inspects `type`. -/
structure Region where
  type : String
deriving DecidableEq

/-- An editor area inside a screen: its `type` and its regions. -/
structure Area where
  type : String
  regions : List Region
deriving DecidableEq

/-- A screen is a list of areas. -/
structure Screen where
  areas : List Area
deriving DecidableEq

/-- A window holds a screen. -/
structure Window where
  screen : Screen
deriving DecidableEq

/-- The session scene.  The two add-on properties are `Option`s because
`register` installs them and `unregister` deletes them; `none` models an
absent attribute, so reads fall back to `getattr`'s default. -/
structure Scene where
  ars_check_interval : Option ℚ
  ars_run_after_reload : Option Bool
deriving DecidableEq

/-- An open text block (`bpy.data.texts` element): `name`, `filepath`,
and the externally-modified flag `is_modified`. -/
structure Text where
  name : String
  filepath : String
  is_modified : Bool
deriving DecidableEq

/-- `find_text_editor`: scan windows, then areas, for the first
`TEXT_EDITOR` area owning a `WINDOW` region; return the trio or `none`.
Mirrors the nested `for` loops with the `next(...)` region search. -/
def find_text_editor (windows : List Window) : Option (Window × Area × Region) :=
  windows.findSome? fun window =>
    window.screen.areas.findSome? fun area =>
      if area.type = "TEXT_EDITOR" then
        (area.regions.find? fun r => r.type = "WINDOW").map fun region =>
          (window, area, region)
      else
        none

/-- The interval read at the top of the tick:
`getattr(bpy.context.scene, PROP_INTERVAL, DEFAULT_CHECK_INTERVAL)` when a
scene is reachable, else `DEFAULT_CHECK_INTERVAL`. -/
def intervalProp : Option Scene → ℚ
  | none => DEFAULT_CHECK_INTERVAL
  | some s => s.ars_check_interval.getD DEFAULT_CHECK_INTERVAL

/-- The run-after-reload read:
`getattr(bpy.context.scene, PROP_RUN_SCRIPT, False)` when a scene is
reachable, else the value that makes the guard fail. -/
def runScriptProp : Option Scene → Bool
  | none => false
  | some s => s.ars_run_after_reload.getD false

/-- Python's `s.lower().endswith(suffix)` on the character sequence of a
string (characters lowered one by one, then a suffix test). -/
def lowerEndsWith (s : String) (suffix : String) : Bool :=
  List.isSuffixOf suffix.data (s.data.map Char.toLower)

/-- The per-document filter of the tick loop:
`text.filepath and text.filepath.lower().endswith('.py') and text.is_modified`
(a Python string is truthy exactly when non-empty). -/
def qualifies (t : Text) : Bool :=
  (t.filepath != "") && lowerEndsWith t.filepath ".py" && t.is_modified

/-- One observable step of a tick: a configuration read or a host-operator
invocation (`ok` records whether the operator succeeded or raised). -/
inductive Event where
  | readInterval (value : ℚ)
  | readRunAfterReload (value : Bool)
  | reload (idx : Nat) (name : String) (ok : Bool)
  | runScript (idx : Nat) (name : String) (ok : Bool)
deriving DecidableEq

/-- The host state a tick sees: open windows, the (optional) scene, the
open text blocks, and the environment's schedule of operator outcomes for
the document at each position. -/
structure HostState where
  windows : List Window
  scene : Option Scene
  texts : List Text
  reloadOk : Nat → Bool
  runOk : Nat → Bool

/-- Events produced by the loop body for the text at position `i`:
nothing when the filter rejects it; a failed reload event when
`bpy.ops.text.reload()` raises (caught by the outer `except`); on success,
the reload event, then — when a scene is reachable — the read of the
run-after-reload property, then, when that read yields `True`, the
`bpy.ops.text.run_script()` invocation (its own failure caught by the
inner `except`). -/
def reloadEvents (st : HostState) (i : Nat) (t : Text) : List Event :=
  if qualifies t then
    if st.reloadOk i then
      Event.reload i t.name true ::
        (match st.scene with
         | none => []
         | some s =>
           Event.readRunAfterReload (s.ars_run_after_reload.getD false) ::
             (if s.ars_run_after_reload.getD false then
                [Event.runScript i t.name (st.runOk i)]
              else []))
    else
      [Event.reload i t.name false]
  else []

/-- The text at position `i` after the loop body: a successful reload
clears `is_modified` (host postcondition of `bpy.ops.text.reload`);
otherwise the text is unchanged. -/
def reloadResult (st : HostState) (i : Nat) (t : Text) : Text :=
  if qualifies t && st.reloadOk i then { t with is_modified := false } else t

/-- The `for text in bpy.data.texts` loop, processing the texts from
position `i` on; returns the updated texts and the event trace. -/
def processFrom (st : HostState) : Nat → List Text → List Text × List Event
  | _, [] => ([], [])
  | i, t :: ts =>
    let rest := processFrom st (i + 1) ts
    (reloadResult st i t :: rest.1, reloadEvents st i t ++ rest.2)

/-- Result of one tick: the updated host state, the event trace, and the
returned delay. -/
structure TickResult where
  state : HostState
  events : List Event
  delay : ℚ

/-- The trace of the interval read at the top of the tick: one read of
the interval property when a scene is reachable, none otherwise. -/
def initialEvents : Option Scene → List Event
  | none => []
  | some s => [Event.readInterval (s.ars_check_interval.getD DEFAULT_CHECK_INTERVAL)]

/-- `auto_reload_scripts_timer`: read the interval, locate a text editor,
skip the cycle when none is visible, otherwise run the reload loop; in
every case return the interval read at the top. -/
def tick (st : HostState) : TickResult :=
  match find_text_editor st.windows with
  | none =>
    { state := st, events := initialEvents st.scene, delay := intervalProp st.scene }
  | some _ =>
    let p := processFrom st 0 st.texts
    { state := { st with texts := p.1 },
      events := initialEvents st.scene ++ p.2,
      delay := intervalProp st.scene }

/-- Matches the reload event for the document at position `k`. -/
def isReloadOn (k : Nat) : Event → Bool
  | .reload i _ _ => i == k
  | _ => false

/-- Matches the execute event for the document at position `k`. -/
def isRunOn (k : Nat) : Event → Bool
  | .runScript i _ _ => i == k
  | _ => false

/-- Matches any reload event. -/
def isReload : Event → Bool
  | .reload _ _ _ => true
  | _ => false

/-- Matches any successful reload event. -/
def isReloadSuccess : Event → Bool
  | .reload _ _ ok => ok
  | _ => false

/-- Matches any execute event. -/
def isRun : Event → Bool
  | .runScript _ _ _ => true
  | _ => false

/-- Matches the read of the interval property. -/
def isReadInterval : Event → Bool
  | .readInterval _ => true
  | _ => false

/-- Matches the read of the run-after-reload property. -/
def isReadRunFlag : Event → Bool
  | .readRunAfterReload _ => true
  | _ => false

/-- A window whose screen holds one visible text editor with a content
region. -/
def demoWindow : Window := ⟨⟨[⟨"TEXT_EDITOR", [⟨"HEADER"⟩, ⟨"WINDOW"⟩]⟩]⟩⟩

/-- A scene with interval 1 second and run-after-reload enabled. -/
def demoScene : Scene := ⟨some 1, some true⟩

/-- Concrete host state: a visible text editor; four texts of which
positions 0 and 3 qualify for reload; reload fails on position 0 and
succeeds elsewhere. -/
def demoState : HostState :=
  { windows := [demoWindow]
  , scene := some demoScene
  , texts := [⟨"a", "a.py", true⟩, ⟨"b", "b.txt", true⟩,
              ⟨"c", "c.py", false⟩, ⟨"d", "d.py", true⟩]
  , reloadOk := fun i => i != 0
  , runOk := fun _ => true }

/-- `demoState` with run-after-reload disabled. -/
def demoNoRunState : HostState :=
  { demoState with scene := some ⟨some 1, some false⟩ }

/-- `demoState` with every reload succeeding (so both qualifying texts
reload successfully in one tick). -/
def allOkState : HostState :=
  { demoState with reloadOk := fun _ => true }

/-- `demoState` with no text editor visible (one 3D viewport area only). -/
def noEditorState : HostState :=
  { demoState with windows := [⟨⟨[⟨"VIEW_3D", [⟨"WINDOW"⟩]⟩]⟩⟩] }

/-- Registration-system state: is the timer callback registered, does the
scene type carry each add-on property, is the panel class registered, is
the menu draw function appended, and does `bpy.types` expose
`TEXT_MT_text`. -/
structure SysState where
  timerRegistered : Bool
  sceneHasInterval : Bool
  sceneHasRun : Bool
  panelRegistered : Bool
  menuAppended : Bool
  hasTextMenu : Bool
deriving DecidableEq

/-- `register()`: `register_class(ARS_PT_ReloadPanel)` raises when the
class is already registered (nothing mutated yet); otherwise install the
interval property if absent, register the timer (re-registration replaces
the entry), append the menu draw function, and install the
run-after-reload property if absent. -/
def registerOp (s : SysState) : Except String SysState :=
  if s.panelRegistered then
    Except.error "ValueError: register_class(...): already registered as a subclass"
  else
    Except.ok { s with
      panelRegistered := true
      sceneHasInterval := true
      timerRegistered := true
      menuAppended := true
      sceneHasRun := true }

/-- `unregister()`: unregister the timer inside `try/except ValueError`
(never raises), delete each scene property guarded by `hasattr`, then
`unregister_class(ARS_PT_ReloadPanel)` — which raises when the class is
not currently registered — and finally remove the menu draw function
guarded by `hasattr` and `try/except ValueError`. -/
def unregisterOp (s : SysState) : Except String SysState :=
  let s1 : SysState :=
    { s with
      timerRegistered := false
      sceneHasInterval := false
      sceneHasRun := false }
  if s1.panelRegistered then
    let s2 : SysState := { s1 with panelRegistered := false }
    Except.ok (if s2.hasTextMenu then { s2 with menuAppended := false } else s2)
  else
    Except.error "RuntimeError: unregister_class(...): class is not registered"

/-- Does the modelled operation raise an exception to its caller? -/
def opRaises : Except String SysState → Bool
  | .error _ => true
  | .ok _ => false

/-- A host session in which nothing of the add-on is registered yet. -/
def freshSys : SysState :=
  { timerRegistered := false, sceneHasInterval := false, sceneHasRun := false
  , panelRegistered := false, menuAppended := false, hasTextMenu := true }

/-- The loop body emits exactly one reload event for position `i`, exactly
when the filter accepts the text, and none for any other position. -/
lemma countP_reloadEvents_reloadOn (st : HostState) (i k : Nat) (t : Text) :
    (reloadEvents st i t).countP (isReloadOn k) =
      if i = k ∧ qualifies t = true then 1 else 0 := by
  unfold reloadEvents
  cases hq : qualifies t
  · simp
  · cases hr : st.reloadOk i
    · simp [isReloadOn, List.countP_cons]
    · cases hs : st.scene with
      | none => simp [isReloadOn, List.countP_cons]
      | some s =>
        cases hf : s.ars_run_after_reload.getD false <;>
          simp [isReloadOn, hf, List.countP_cons]

/-- The loop body emits exactly one execute event for position `i`, exactly
when the filter accepts the text, the reload succeeded, and the
run-after-reload read yielded true; and none for any other position. -/
lemma countP_reloadEvents_runOn (st : HostState) (i k : Nat) (t : Text) :
    (reloadEvents st i t).countP (isRunOn k) =
      if i = k ∧ (qualifies t && st.reloadOk i && runScriptProp st.scene) = true
      then 1 else 0 := by
  unfold reloadEvents
  cases hq : qualifies t
  · simp
  · cases hr : st.reloadOk i
    · simp [isRunOn, List.countP_cons]
    · cases hs : st.scene with
      | none => simp [runScriptProp, hs, isRunOn, List.countP_cons]
      | some s =>
        cases hf : s.ars_run_after_reload.getD false <;>
          simp [runScriptProp, hs, isRunOn, hf, List.countP_cons]

/-- Generic form of the two per-event lemmas above, for lifting through
the loop: `p k` counts events of position `k` and `C` gives the per-text
contribution. -/
def IndexedCount (st : HostState) (p : Nat → Event → Bool) (C : Nat → Text → Bool) : Prop :=
  ∀ i k t, (reloadEvents st i t).countP (p k) = if i = k ∧ C i t = true then 1 else 0

/-- Events of a position below the start index never occur in the rest of
the loop. -/
lemma countP_processFrom_lt (st : HostState) (p : Nat → Event → Bool)
    (C : Nat → Text → Bool) (hC : IndexedCount st p C) (ts : List Text) :
    ∀ i k : Nat, k < i → ((processFrom st i ts).2).countP (p k) = 0 := by
  induction ts with
  | nil => intro i k _; simp [processFrom]
  | cons t ts ih =>
    intro i k h
    have h1 : ¬(i = k ∧ C i t = true) := fun hc => absurd hc.1 (by omega)
    rw [processFrom]
    simp [List.countP_append, hC i k t, h1, ih (i + 1) k (by omega)]

/-- Counting events of position `i + k` over the loop started at `i`
isolates the contribution of the text at offset `k`. -/
lemma countP_processFrom_indexed (st : HostState) (p : Nat → Event → Bool)
    (C : Nat → Text → Bool) (hC : IndexedCount st p C) (ts : List Text) :
    ∀ i k : Nat,
      ((processFrom st i ts).2).countP (p (i + k)) =
        match ts.get? k with
        | some t => if C (i + k) t = true then 1 else 0
        | none => 0 := by
  induction ts with
  | nil => intro i k; simp [processFrom]
  | cons t ts ih =>
    intro i k
    rw [processFrom]
    cases k with
    | zero =>
      have h0 := countP_processFrom_lt st p C hC ts (i + 1) i (by omega)
      simp [List.countP_append, hC i i t, h0]
    | succ k =>
      have h1 : ¬(i = i + (k + 1) ∧ C i t = true) := fun hc => absurd hc.1 (by omega)
      have h2 : i + (k + 1) = (i + 1) + k := by omega
      rw [List.countP_append, hC i (i + (k + 1)) t, if_neg h1, h2, ih (i + 1) k]
      simp

/-- Instance of `IndexedCount` for reload events. -/
lemma indexedCount_reload (st : HostState) :
    IndexedCount st isReloadOn (fun _ t => qualifies t) := by
  intro i k t
  exact countP_reloadEvents_reloadOn st i k t

/-- Instance of `IndexedCount` for execute events. -/
lemma indexedCount_run (st : HostState) :
    IndexedCount st isRunOn
      (fun i t => qualifies t && st.reloadOk i && runScriptProp st.scene) := by
  intro i k t
  exact countP_reloadEvents_runOn st i k t

/-- When the run-after-reload read yields false, the loop body emits no
execute event at all. -/
lemma countP_reloadEvents_isRun (st : HostState) (h : runScriptProp st.scene = false)
    (i : Nat) (t : Text) : (reloadEvents st i t).countP isRun = 0 := by
  unfold reloadEvents
  cases hq : qualifies t
  · simp
  · cases hr : st.reloadOk i
    · simp [isRun, List.countP_cons]
    · cases hs : st.scene with
      | none => simp [isRun, List.countP_cons]
      | some s =>
        have hf : s.ars_run_after_reload.getD false = false := by
          simpa [runScriptProp, hs] using h
        simp [isRun, hf, List.countP_cons]

/-- When the run-after-reload read yields false, the whole loop emits no
execute event. -/
lemma countP_processFrom_isRun (st : HostState) (h : runScriptProp st.scene = false)
    (ts : List Text) : ∀ i : Nat, ((processFrom st i ts).2).countP isRun = 0 := by
  induction ts with
  | nil => intro i; simp [processFrom]
  | cons t ts ih =>
    intro i
    rw [processFrom]
    simp [List.countP_append, countP_reloadEvents_isRun st h i t, ih (i + 1)]

/-- The loop body never reads the interval property. -/
lemma countP_reloadEvents_readInterval (st : HostState) (i : Nat) (t : Text) :
    (reloadEvents st i t).countP isReadInterval = 0 := by
  unfold reloadEvents
  cases hq : qualifies t
  · simp
  · cases hr : st.reloadOk i
    · simp [isReadInterval, List.countP_cons]
    · cases hs : st.scene with
      | none => simp [isReadInterval, List.countP_cons]
      | some s =>
        cases hf : s.ars_run_after_reload.getD false <;>
          simp [isReadInterval, hf, List.countP_cons]

/-- The loop never reads the interval property. -/
lemma countP_processFrom_readInterval (st : HostState) (ts : List Text) :
    ∀ i : Nat, ((processFrom st i ts).2).countP isReadInterval = 0 := by
  induction ts with
  | nil => intro i; simp [processFrom]
  | cons t ts ih =>
    intro i
    rw [processFrom]
    simp [List.countP_append, countP_reloadEvents_readInterval st i t, ih (i + 1)]

/-- When a scene is reachable, the loop body reads the run-after-reload
property exactly once per successful reload. -/
lemma countP_reloadEvents_readRun_eq (st : HostState) (s : Scene)
    (h : st.scene = some s) (i : Nat) (t : Text) :
    (reloadEvents st i t).countP isReadRunFlag =
      (reloadEvents st i t).countP isReloadSuccess := by
  unfold reloadEvents
  cases hq : qualifies t
  · simp
  · cases hr : st.reloadOk i
    · simp [isReadRunFlag, isReloadSuccess, List.countP_cons]
    · rw [h]
      cases hf : s.ars_run_after_reload.getD false <;>
        simp [isReadRunFlag, isReloadSuccess, hf, List.countP_cons]

/-- When a scene is reachable, the loop reads the run-after-reload
property exactly once per successful reload. -/
lemma countP_processFrom_readRun_eq (st : HostState) (s : Scene)
    (h : st.scene = some s) (ts : List Text) :
    ∀ i : Nat,
      ((processFrom st i ts).2).countP isReadRunFlag =
        ((processFrom st i ts).2).countP isReloadSuccess := by
  induction ts with
  | nil => intro i; simp [processFrom]
  | cons t ts ih =>
    intro i
    rw [processFrom]
    simp [List.countP_append, countP_reloadEvents_readRun_eq st s h i t, ih (i + 1)]

/-- The text at offset `k` after the loop started at `i` is the loop-body
result for position `i + k`. -/
lemma processFrom_fst_get? (st : HostState) (ts : List Text) :
    ∀ i k : Nat,
      ((processFrom st i ts).1).get? k =
        (ts.get? k).map fun t => reloadResult st (i + k) t := by
  induction ts with
  | nil => intro i k; simp [processFrom]
  | cons t ts ih =>
    intro i k
    rw [processFrom]
    cases k with
    | zero => simp
    | succ k =>
      have h2 : i + (k + 1) = (i + 1) + k := by omega
      rw [h2]
      simpa using ih (i + 1) k

/-- `initialEvents` holds no event besides the interval read. -/
lemma countP_initialEvents (os : Option Scene) (p : Event → Bool)
    (hp : ∀ v, p (Event.readInterval v) = false) :
    (initialEvents os).countP p = 0 := by
  cases os <;> simp [initialEvents, List.countP_cons, hp]

/-- Claim C1: every tick invocation, in every host state, returns a
numeric delay (`tick` is a total function into `TickResult`, so no
exception propagates), and the delay equals the `intervalSeconds` value
read from the session configuration at call time — through `getattr`,
whose fixed default also covers an unregistered property — or the fixed
default 0.5 s when no session configuration is reachable. -/
theorem tick_returns_configured_delay (st : HostState) :
    (tick st).delay =
      match st.scene with
      | none => DEFAULT_CHECK_INTERVAL
      | some s => s.ars_check_interval.getD DEFAULT_CHECK_INTERVAL := by
  cases hfind : find_text_editor st.windows <;>
    cases hs : st.scene <;>
      simp [tick, hfind, hs, intervalProp]

/-- Claim C2: in every tick, a document whose `filepath` is empty, or
whose lowercased `filepath` does not end in `.py`, or whose
externally-modified flag is false, gets no reload invocation. -/
theorem tick_skips_filtered_documents (st : HostState) (i : Nat) (t : Text)
    (ht : st.texts.get? i = some t)
    (h : t.filepath = "" ∨ lowerEndsWith t.filepath ".py" = false ∨
      t.is_modified = false) :
    ((tick st).events).countP (isReloadOn i) = 0 := by
  have hq : qualifies t = false := by
    rcases h with h | h | h <;> simp [qualifies, h]
  have h0 : (initialEvents st.scene).countP (isReloadOn i) = 0 :=
    countP_initialEvents st.scene (isReloadOn i) (fun _ => rfl)
  cases hfind : find_text_editor st.windows with
  | none => simpa [tick, hfind] using h0
  | some ctx =>
    have hmain :=
      countP_processFrom_indexed st isReloadOn _ (indexedCount_reload st) st.texts 0 i
    rw [Nat.zero_add, ht] at hmain
    simp [tick, hfind, List.countP_append, h0, hmain, hq]

/-- Witness for C2 at `demoState`, position 1 (`b.txt` does not end in
`.py`): no reload invocation on it. -/
theorem tick_skips_filtered_documents_witness :
    demoState.texts.get? 1 = some ⟨"b", "b.txt", true⟩ ∧
    lowerEndsWith "b.txt" ".py" = false ∧
    ((tick demoState).events).countP (isReloadOn 1) = 0 :=
  ⟨by decide, by decide,
    tick_skips_filtered_documents demoState 1 ⟨"b", "b.txt", true⟩ (by decide)
      (Or.inr (Or.inl (by decide)))⟩

/-- Claim C6: when the run-after-reload read yields false, no execute
action is invoked on any document, whatever the reload outcomes. -/
theorem tick_no_execute_when_disabled (st : HostState)
    (h : runScriptProp st.scene = false) :
    ((tick st).events).countP isRun = 0 := by
  have h0 : (initialEvents st.scene).countP isRun = 0 :=
    countP_initialEvents st.scene isRun (fun _ => rfl)
  cases hfind : find_text_editor st.windows with
  | none => simpa [tick, hfind] using h0
  | some ctx =>
    simp [tick, hfind, List.countP_append, h0,
      countP_processFrom_isRun st h st.texts 0]

/-- Witness for C6 at `demoNoRunState` (flag present and false, two
qualifying documents, one failing and one successful reload): no execute
invocation. -/
theorem tick_no_execute_when_disabled_witness :
    runScriptProp demoNoRunState.scene = false ∧
    ((tick demoNoRunState).events).countP isRun = 0 :=
  ⟨by decide, tick_no_execute_when_disabled demoNoRunState (by decide)⟩

/-- Claim C7: when no visible text-editor area with a content region
exists, the tick performs zero reload and zero execute invocations and
still returns the currently configured interval as the delay. -/
theorem tick_skips_cycle_without_editor (st : HostState)
    (h : find_text_editor st.windows = none) :
    ((tick st).events).countP isReload = 0 ∧
    ((tick st).events).countP isRun = 0 ∧
    (tick st).delay = intervalProp st.scene := by
  refine ⟨?_, ?_, ?_⟩ <;>
    simp [tick, h, countP_initialEvents st.scene isReload (fun _ => rfl),
      countP_initialEvents st.scene isRun (fun _ => rfl)]

/-- Witness for C7 at `noEditorState` (only a 3D viewport is open while
two documents would qualify): no reloads, no executes, delay 1 s. -/
theorem tick_skips_cycle_without_editor_witness :
    find_text_editor noEditorState.windows = none ∧
    ((tick noEditorState).events).countP isReload = 0 ∧
    ((tick noEditorState).events).countP isRun = 0 ∧
    (tick noEditorState).delay = intervalProp noEditorState.scene :=
  ⟨by decide, (tick_skips_cycle_without_editor noEditorState (by decide)).1,
    (tick_skips_cycle_without_editor noEditorState (by decide)).2.1,
    (tick_skips_cycle_without_editor noEditorState (by decide)).2.2⟩

/-- Claim C3 (amended): with a visible text editor, a document whose
lowercased `filepath` ends in `.py` and whose externally-modified flag is
set receives exactly one reload invocation; and when that reload
succeeds, the document's externally-modified flag is cleared after the
tick.  (The original claim asserted the flag cleared unconditionally; a
failing reload leaves it set.) -/
theorem tick_reloads_qualifying_once (st : HostState) (i : Nat) (t : Text)
    (ht : st.texts.get? i = some t)
    (hpy : lowerEndsWith t.filepath ".py" = true)
    (hmod : t.is_modified = true)
    (hed : (find_text_editor st.windows).isSome = true) :
    ((tick st).events).countP (isReloadOn i) = 1 ∧
    (st.reloadOk i = true →
      ((tick st).state.texts.get? i).map Text.is_modified = some false) := by
  have hne : (t.filepath != "") = true := by
    cases he : t.filepath == ""
    · simp [bne, he]
    · have hfe : t.filepath = "" := eq_of_beq he
      rw [hfe] at hpy
      exact absurd hpy (by decide)
  have hq : qualifies t = true := by
    simp [qualifies, hne, hpy, hmod]
  obtain ⟨ctx, hfind⟩ := Option.isSome_iff_exists.mp hed
  constructor
  · have h0 : (initialEvents st.scene).countP (isReloadOn i) = 0 :=
      countP_initialEvents st.scene (isReloadOn i) (fun _ => rfl)
    have hmain :=
      countP_processFrom_indexed st isReloadOn _ (indexedCount_reload st) st.texts 0 i
    rw [Nat.zero_add, ht] at hmain
    simp [tick, hfind, List.countP_append, h0, hmain, hq]
  · intro hok
    have hget := processFrom_fst_get? st st.texts 0 i
    rw [Nat.zero_add, ht] at hget
    simp only [tick, hfind]
    rw [hget]
    simp [reloadResult, hq, hok]

/-- Counterexample to C3 as stated: in `demoState` the text editor is
visible, the document at position 0 (`a.py`, flagged modified) qualifies
and receives one reload invocation, but that reload raises, and after the
tick its externally-modified flag is still set — not cleared as the claim
asserts. -/
theorem tick_reload_failure_leaves_flag_set :
    (find_text_editor demoState.windows).isSome = true ∧
    demoState.texts.get? 0 = some ⟨"a", "a.py", true⟩ ∧
    lowerEndsWith "a.py" ".py" = true ∧
    ((tick demoState).events).countP (isReloadOn 0) = 1 ∧
    ((tick demoState).state.texts.get? 0).map Text.is_modified = some true := by
  refine ⟨by decide, by decide, by decide, by decide, by decide⟩

/-- Witness for the amended C3 at `demoState`, position 3 (`d.py`,
modified, reload succeeds): one reload invocation and flag cleared. -/
theorem tick_reloads_qualifying_once_witness :
    demoState.texts.get? 3 = some ⟨"d", "d.py", true⟩ ∧
    demoState.reloadOk 3 = true ∧
    ((tick demoState).events).countP (isReloadOn 3) = 1 ∧
    ((tick demoState).state.texts.get? 3).map Text.is_modified = some false :=
  have h := tick_reloads_qualifying_once demoState 3 ⟨"d", "d.py", true⟩
    (by decide) (by decide) (by decide) (by decide)
  ⟨by decide, by decide, h.1, h.2 (by decide)⟩

/-- Claim C4: a failing reload on an earlier document does not prevent
the reload invocation on a later qualifying document in the same tick:
the later document still receives exactly one reload invocation. -/
theorem tick_reload_failure_isolated (st : HostState) (i j : Nat)
    (ti tj : Text) (_hij : i < j)
    (_hti : st.texts.get? i = some ti) (htj : st.texts.get? j = some tj)
    (_hqi : qualifies ti = true) (hqj : qualifies tj = true)
    (_hfail : st.reloadOk i = false)
    (hed : (find_text_editor st.windows).isSome = true) :
    ((tick st).events).countP (isReloadOn j) = 1 := by
  obtain ⟨ctx, hfind⟩ := Option.isSome_iff_exists.mp hed
  have h0 : (initialEvents st.scene).countP (isReloadOn j) = 0 :=
    countP_initialEvents st.scene (isReloadOn j) (fun _ => rfl)
  have hmain :=
    countP_processFrom_indexed st isReloadOn _ (indexedCount_reload st) st.texts 0 j
  rw [Nat.zero_add, htj] at hmain
  simp [tick, hfind, List.countP_append, h0, hmain, hqj]

/-- Witness for C4 at `demoState`: reload raises on position 0 (`a.py`)
yet position 3 (`d.py`) still receives its reload invocation. -/
theorem tick_reload_failure_isolated_witness :
    demoState.reloadOk 0 = false ∧
    qualifies ⟨"a", "a.py", true⟩ = true ∧
    qualifies ⟨"d", "d.py", true⟩ = true ∧
    ((tick demoState).events).countP (isReloadOn 3) = 1 :=
  ⟨by decide, by decide, by decide,
    tick_reload_failure_isolated demoState 0 3 ⟨"a", "a.py", true⟩
      ⟨"d", "d.py", true⟩ (by decide) (by decide) (by decide) (by decide)
      (by decide) (by decide) (by decide)⟩

/-- Claim C5: when the run-after-reload read yields true and the reload
of a qualifying document succeeds, the execute action is invoked exactly
once, targeted at that same document. -/
theorem tick_executes_once_after_successful_reload (st : HostState) (i : Nat)
    (t : Text) (ht : st.texts.get? i = some t)
    (hq : qualifies t = true)
    (hed : (find_text_editor st.windows).isSome = true)
    (hflag : runScriptProp st.scene = true)
    (hok : st.reloadOk i = true) :
    ((tick st).events).countP (isRunOn i) = 1 := by
  obtain ⟨ctx, hfind⟩ := Option.isSome_iff_exists.mp hed
  have h0 : (initialEvents st.scene).countP (isRunOn i) = 0 :=
    countP_initialEvents st.scene (isRunOn i) (fun _ => rfl)
  have hmain :=
    countP_processFrom_indexed st isRunOn _ (indexedCount_run st) st.texts 0 i
  rw [Nat.zero_add, ht] at hmain
  simp [tick, hfind, List.countP_append, h0, hmain, hq, hok, hflag]

/-- Witness for C5 at `demoState`, position 3 (`d.py`): flag enabled,
reload succeeds, exactly one execute invocation on it. -/
theorem tick_executes_once_after_successful_reload_witness :
    runScriptProp demoState.scene = true ∧
    demoState.reloadOk 3 = true ∧
    ((tick demoState).events).countP (isRunOn 3) = 1 :=
  ⟨by decide, by decide,
    tick_executes_once_after_successful_reload demoState 3 ⟨"d", "d.py", true⟩
      (by decide) (by decide) (by decide) (by decide) (by decide)⟩

/-- Claim C8 (amended): the `intervalSeconds` property is read exactly
once per tick, at the start — so the returned delay depends only on the
configuration at the start of the tick — but the `runAfterReload`
property is not read once per cycle: it is read exactly once per
successful reload, at the moment that document is processed (zero or
many times per tick). -/
theorem tick_config_read_counts (st : HostState) (s : Scene)
    (h : st.scene = some s) :
    ((tick st).events).countP isReadInterval = 1 ∧
    ((tick st).events).countP isReadRunFlag =
      ((tick st).events).countP isReloadSuccess := by
  have h1 : (initialEvents st.scene).countP isReadInterval = 1 := by
    rw [h]; simp [initialEvents, List.countP_cons, isReadInterval]
  have h2 : (initialEvents st.scene).countP isReadRunFlag = 0 :=
    countP_initialEvents st.scene isReadRunFlag (fun _ => rfl)
  have h3 : (initialEvents st.scene).countP isReloadSuccess = 0 :=
    countP_initialEvents st.scene isReloadSuccess (fun _ => rfl)
  cases hfind : find_text_editor st.windows with
  | none =>
    refine ⟨by simpa [tick, hfind] using h1, ?_⟩
    simp [tick, hfind, h2, h3]
  | some ctx =>
    refine ⟨?_, ?_⟩
    · simp [tick, hfind, List.countP_append, h1,
        countP_processFrom_readInterval st st.texts 0]
    · simp [tick, hfind, List.countP_append, h2, h3,
        countP_processFrom_readRun_eq st s h st.texts 0]

/-- Counterexample to C8 as stated: in `allOkState` a session
configuration is present, yet one tick reads the `runAfterReload`
property twice (once per successful reload of the two qualifying
documents), not exactly once per poll cycle. -/
theorem tick_reads_run_flag_per_reload :
    allOkState.scene.isSome = true ∧
    ((tick allOkState).events).countP isReadRunFlag = 2 := by
  refine ⟨by decide, by decide⟩

/-- Witness for the amended C8 at `demoState` (one failed and one
successful reload): one interval read; run-flag reads equal successful
reloads. -/
theorem tick_config_read_counts_witness :
    demoState.scene = some demoScene ∧
    ((tick demoState).events).countP isReadInterval = 1 ∧
    ((tick demoState).events).countP isReadRunFlag =
      ((tick demoState).events).countP isReloadSuccess :=
  have h := tick_config_read_counts demoState demoScene (by decide)
  ⟨by decide, h.1, h.2⟩

/-- Claim C9 is contradicted by the code: `unregister()` is not
idempotent.  On a session where the add-on is not registered — or after
`register()` followed by one `unregister()` — a further `unregister()`
raises from `unregister_class(ARS_PT_ReloadPanel)`, the one teardown step
not guarded by `try/except` or `hasattr`. -/
theorem unregister_not_idempotent :
    opRaises (unregisterOp freshSys) = true ∧
    opRaises (Except.bind (Except.bind (registerOp freshSys) unregisterOp)
      unregisterOp) = true := by
  refine ⟨by decide, by decide⟩

/-- Claim C10: after a successful `register()` followed by
`unregister()`, both configuration properties are deleted from the scene
type, the timer is stopped, and the panel and menu entry are removed; and
a configuration read against a scene lacking the properties falls back to
the fixed defaults (0.5 s interval, run-after-reload off). -/
theorem unregister_deletes_configuration (s : SysState)
    (h1 : s.panelRegistered = false) (h2 : s.hasTextMenu = true) :
    Except.bind (registerOp s) unregisterOp =
      Except.ok { timerRegistered := false, sceneHasInterval := false,
                  sceneHasRun := false, panelRegistered := false,
                  menuAppended := false, hasTextMenu := true } ∧
    intervalProp (some ⟨none, none⟩) = DEFAULT_CHECK_INTERVAL ∧
    runScriptProp (some ⟨none, none⟩) = false := by
  refine ⟨?_, rfl, rfl⟩
  simp [registerOp, unregisterOp, h1, h2, Except.bind]

/-- Witness for C10 at the fresh session state. -/
theorem unregister_deletes_configuration_witness :
    freshSys.panelRegistered = false ∧ freshSys.hasTextMenu = true ∧
    Except.bind (registerOp freshSys) unregisterOp =
      Except.ok { timerRegistered := false, sceneHasInterval := false,
                  sceneHasRun := false, panelRegistered := false,
                  menuAppended := false, hasTextMenu := true } ∧
    intervalProp (some ⟨none, none⟩) = DEFAULT_CHECK_INTERVAL ∧
    runScriptProp (some ⟨none, none⟩) = false :=
  ⟨by decide, by decide,
    unregister_deletes_configuration freshSys (by decide) (by decide)⟩

end AutoReloadScripts
